import Mathlib

/-!
Shallow embedding of `homework.py`, a fitness-tracker module computing
distance, mean speed and calories for three workout types (Running,
SportsWalking, Swimming), plus a dispatcher `read_package` mapping a
workout-type code and a raw value list to a constructed record.

Numbers are modelled as `ℚ` (the source computes with exact decimal
constants and no intermediate rounding).  A Python division that can raise
`ZeroDivisionError` is modelled by `pydiv`, returning `none` exactly when
the divisor is zero; consequently the metric computations are
`Option`-valued.  Dispatch errors (`ValueError` for an unknown code, the
generic `TypeError` produced by positional unpacking with a wrong argument
count) are modelled by `PyError` and an `Except`-valued `read_package`.
-/

/-- `InfoMessage` dataclass: the derived summary of one workout. -/
structure InfoMessage where
  training_type : String
  duration : ℚ
  distance : ℚ
  speed : ℚ
  calories : ℚ
deriving DecidableEq

/-- Render `k < 1000` as exactly three decimal digits. -/
def pad3 (k : ℕ) : String :=
  if k < 10 then "00" ++ toString k
  else if k < 100 then "0" ++ toString k
  else toString k

/-- Fixed-point rendering of a rational with three digits after the decimal
point, as Python's `:.3f` format (rounding of the scaled value to the
nearest integer; the exact tie-breaking mode is immaterial here). -/
def formatFix3 (q : ℚ) : String :=
  (if round (q * 1000) < 0 then "-" else "")
    ++ toString ((round (q * 1000)).natAbs / 1000)
    ++ "." ++ pad3 ((round (q * 1000)).natAbs % 1000)

/-- `InfoMessage.get_message`: the single-line summary template of the
source (Russian field labels, each numeric field with three decimals). -/
def InfoMessage.get_message (m : InfoMessage) : String :=
  "Тип тренировки: " ++ m.training_type
    ++ "; Длительность: " ++ formatFix3 m.duration
    ++ " ч.; Дистанция: " ++ formatFix3 m.distance
    ++ " км; Ср. скорость: " ++ formatFix3 m.speed
    ++ " км/ч; Потрачено ккал: " ++ formatFix3 m.calories ++ "."

/-- The `Training` hierarchy: base fields `action, duration, weight`, the
`SportsWalking` subclass adds `height`, the `Swimming` subclass adds
`length_pool` and `count_pool`. -/
inductive Training where
  | running (action duration weight : ℚ)
  | sportsWalking (action duration weight height : ℚ)
  | swimming (action duration weight length_pool count_pool : ℚ)
deriving DecidableEq

/-- `Training.M_IN_KM = 1000`. -/
def M_IN_KM : ℚ := 1000

/-- `Training.MIN_IN_HOUR = 60`. -/
def MIN_IN_HOUR : ℚ := 60

namespace Running

/-- `Running.CALORIES_MEAN_SPEED_MULTIPLIER = 18`. -/
def CALORIES_MEAN_SPEED_MULTIPLIER : ℚ := 18

/-- `Running.CALORIES_MEAN_SPEED_SHIFT = 1.79`. -/
def CALORIES_MEAN_SPEED_SHIFT : ℚ := 1.79

end Running

namespace SportsWalking

/-- `SportsWalking.COEFF_1 = 0.035`. -/
def COEFF_1 : ℚ := 0.035

/-- `SportsWalking.COEFF_2 = 0.029`. -/
def COEFF_2 : ℚ := 0.029

/-- `SportsWalking.SM_M = 100`. -/
def SM_M : ℚ := 100

/-- `SportsWalking.M_SEC = 0.278`. -/
def M_SEC : ℚ := 0.278

end SportsWalking

namespace Swimming

/-- `Swimming.LEN_STEP = 1.38` (overrides the base class value `0.65`). -/
def LEN_STEP : ℚ := 1.38

/-- `Swimming.COEFF_1 = 1.1`. -/
def COEFF_1 : ℚ := 1.1

/-- `Swimming.COEFF_2 = 2`. -/
def COEFF_2 : ℚ := 2

end Swimming

/-- The `action` field shared by all variants. -/
def Training.action : Training → ℚ
  | .running a _ _ => a
  | .sportsWalking a _ _ _ => a
  | .swimming a _ _ _ _ => a

/-- The `duration` field shared by all variants. -/
def Training.duration : Training → ℚ
  | .running _ d _ => d
  | .sportsWalking _ d _ _ => d
  | .swimming _ d _ _ _ => d

/-- The `weight` field shared by all variants. -/
def Training.weight : Training → ℚ
  | .running _ _ w => w
  | .sportsWalking _ _ w _ => w
  | .swimming _ _ w _ _ => w

/-- The effective class attribute `LEN_STEP`: `0.65` from the base class for
`Running` and `SportsWalking`, overridden to `1.38` in `Swimming`. -/
def Training.LEN_STEP : Training → ℚ
  | .swimming _ _ _ _ _ => Swimming.LEN_STEP
  | _ => 0.65

/-- `type(self).__name__`: the variant's class name. -/
def Training.type_name : Training → String
  | .running _ _ _ => "Running"
  | .sportsWalking _ _ _ _ => "SportsWalking"
  | .swimming _ _ _ _ _ => "Swimming"

/-- Python division, raising (`none`) exactly on a zero divisor. -/
def pydiv (a b : ℚ) : Option ℚ :=
  if b = 0 then none else some (a / b)

/-- `Training.get_distance`: `action * LEN_STEP / M_IN_KM` (division by the
constant `1000` cannot raise). -/
def Training.get_distance (t : Training) : ℚ :=
  t.action * t.LEN_STEP / M_IN_KM

/-- `get_mean_speed`: the base class computes `get_distance() / duration`;
`Swimming` overrides it with `length_pool * count_pool / M_IN_KM / duration`. -/
def Training.get_mean_speed : Training → Option ℚ
  | .swimming _ d _ l c => pydiv (l * c / M_IN_KM) d
  | t => pydiv t.get_distance t.duration

/-- `get_spent_calories`, per variant as in the source.  The division by
`height / SM_M` in `SportsWalking` raises exactly when `height = 0`. -/
def Training.get_spent_calories : Training → Option ℚ
  | .running a d w =>
      (Training.get_mean_speed (.running a d w)).map fun ms =>
        (Running.CALORIES_MEAN_SPEED_MULTIPLIER * ms
          + Running.CALORIES_MEAN_SPEED_SHIFT) * w
          / M_IN_KM * (d * MIN_IN_HOUR)
  | .sportsWalking a d w h =>
      (Training.get_mean_speed (.sportsWalking a d w h)).bind fun ms =>
        (pydiv ((ms * SportsWalking.M_SEC) ^ 2) (h / SportsWalking.SM_M)).map fun sq =>
          (SportsWalking.COEFF_1 * w + sq * SportsWalking.COEFF_2 * w)
            * (d * MIN_IN_HOUR)
  | .swimming a d w l c =>
      (Training.get_mean_speed (.swimming a d w l c)).map fun ms =>
        (ms + Swimming.COEFF_1) * Swimming.COEFF_2 * w * d

/-- `Training.show_training_info`: build the `InfoMessage` from the class
name, the duration and the three computed metrics; `none` when any metric
computation raises. -/
def Training.show_training_info (t : Training) : Option InfoMessage :=
  t.get_mean_speed.bind fun sp =>
    t.get_spent_calories.map fun cal =>
      ⟨t.type_name, t.duration, t.get_distance, sp, cal⟩

/-- Errors a dispatch can raise. -/
inductive PyError where
  /-- `ValueError` with its message, raised for an unrecognized code. -/
  | valueError (msg : String)
  /-- The generic `TypeError` Python raises when positional unpacking
  supplies a wrong number of constructor arguments. -/
  | typeError
  /-- Modelled from the spec: the domain-specific `ArityMismatch` error the
  spec requires for a wrong raw-value count.  The source never produces it;
  it is declared only so the spec's claim can be stated and compared with
  the source behaviour. -/
  | arityMismatch
deriving DecidableEq

/-- `read_package`: map `'SWM'/'RUN'/'WLK'` to the corresponding
constructor applied positionally to `data`; a wrong argument count makes
the constructor call raise a generic `TypeError`; any other code raises
`ValueError` with a fixed message. -/
def read_package (workout_type : String) (data : List ℚ) : Except PyError Training :=
  if workout_type = "SWM" then
    match data with
    | [a, d, w, l, c] => .ok (.swimming a d w l c)
    | _ => .error .typeError
  else if workout_type = "RUN" then
    match data with
    | [a, d, w] => .ok (.running a d w)
    | _ => .error .typeError
  else if workout_type = "WLK" then
    match data with
    | [a, d, w, h] => .ok (.sportsWalking a d w h)
    | _ => .error .typeError
  else
    .error (.valueError "Неподдерживаемый тип тренировки")

/-- Whether the variant's own divisor field (only `height`, for
`SportsWalking`) is nonzero. -/
def Training.height_nonzero : Training → Prop
  | .sportsWalking _ _ _ h => h ≠ 0
  | _ => True

/-- C1: for every Running record with nonzero duration, the computed
calories equal `(18 * ms + 1.79) * weight / 1000 * duration * 60`, where
`ms = action * 0.65 / 1000 / duration` is the record's mean speed. -/
theorem C1_running_calories (a d w : ℚ) (hd : d ≠ 0) :
    (Training.running a d w).get_spent_calories
      = some ((18 * (a * 0.65 / 1000 / d) + 1.79) * w / 1000 * d * 60) := by
  simp only [Training.get_spent_calories, Training.get_mean_speed,
    Training.get_distance, Training.action, Training.duration,
    Training.LEN_STEP, pydiv, M_IN_KM, MIN_IN_HOUR,
    Running.CALORIES_MEAN_SPEED_MULTIPLIER, Running.CALORIES_MEAN_SPEED_SHIFT,
    if_neg hd, Option.map_some]
  exact congrArg some (by ring)

/-- C1 witness at the running scenario record. -/
theorem C1_running_calories_witness :
    (1 : ℚ) ≠ 0 ∧
    (Training.running 15000 1 75).get_spent_calories
      = some ((18 * (15000 * 0.65 / 1000 / 1) + 1.79) * 75 / 1000 * 1 * 60) :=
  ⟨by norm_num, C1_running_calories 15000 1 75 (by norm_num)⟩

/-- C2: for every SportsWalking record with nonzero duration and height,
the computed calories equal
`(0.035*w + ((ms*0.278)^2 / (h/100)) * 0.029 * w) * d * 60`, where `ms` is
the default mean speed `a * 0.65 / 1000 / d`. -/
theorem C2_walking_calories (a d w h : ℚ) (hd : d ≠ 0) (hh : h ≠ 0) :
    (Training.sportsWalking a d w h).get_spent_calories
      = some ((0.035 * w
          + (((a * 0.65 / 1000 / d) * 0.278) ^ 2 / (h / 100)) * 0.029 * w)
          * d * 60) := by
  have hh100 : h / (100 : ℚ) ≠ 0 := div_ne_zero hh (by norm_num)
  simp only [Training.get_spent_calories, Training.get_mean_speed,
    Training.get_distance, Training.action, Training.duration,
    Training.LEN_STEP, pydiv, M_IN_KM, MIN_IN_HOUR,
    SportsWalking.COEFF_1, SportsWalking.COEFF_2, SportsWalking.SM_M,
    SportsWalking.M_SEC, if_neg hd, if_neg hh100,
    Option.some_bind, Option.map_some]
  exact congrArg some (by ring)

/-- C2 witness at the walking scenario record. -/
theorem C2_walking_calories_witness :
    (1 : ℚ) ≠ 0 ∧ (180 : ℚ) ≠ 0 ∧
    (Training.sportsWalking 9000 1 75 180).get_spent_calories
      = some ((0.035 * 75
          + (((9000 * 0.65 / 1000 / 1) * 0.278) ^ 2 / (180 / 100)) * 0.029 * 75)
          * 1 * 60) :=
  ⟨by norm_num, by norm_num,
    C2_walking_calories 9000 1 75 180 (by norm_num) (by norm_num)⟩

/-- C3: for every Swimming record with nonzero duration, the mean speed is
`length_pool * count_pool / 1000 / duration`, overriding the default
distance-based formula. -/
theorem C3_swimming_mean_speed (a d w l c : ℚ) (hd : d ≠ 0) :
    (Training.swimming a d w l c).get_mean_speed
      = some (l * c / 1000 / d) := by
  simp only [Training.get_mean_speed, pydiv, M_IN_KM, if_neg hd]

/-- C3 witness at the swimming scenario record. -/
theorem C3_swimming_mean_speed_witness :
    (1 : ℚ) ≠ 0 ∧
    (Training.swimming 720 1 80 25 40).get_mean_speed
      = some (25 * 40 / 1000 / 1) :=
  ⟨by norm_num, C3_swimming_mean_speed 720 1 80 25 40 (by norm_num)⟩

/-- C6: end-to-end swimming scenario: dispatching `("SWM", [720,1,80,25,40])`
constructs the Swimming record, whose distance is `720*1.38/1000 = 0.9936`
(via the default distance formula with swimming's step length `1.38`),
whose mean speed is `25*40/1000/1 = 1.0` and whose calories are
`(1.0+1.1)*2*80*1 = 336.0`. -/
theorem C6_swimming_scenario :
    read_package "SWM" [720, 1, 80, 25, 40]
        = Except.ok (Training.swimming 720 1 80 25 40)
    ∧ (Training.swimming 720 1 80 25 40).get_distance = 720 * 1.38 / 1000
    ∧ (Training.swimming 720 1 80 25 40).get_distance = 0.9936
    ∧ (Training.swimming 720 1 80 25 40).get_mean_speed
        = some (25 * 40 / 1000 / 1)
    ∧ (Training.swimming 720 1 80 25 40).get_mean_speed = some 1
    ∧ (Training.swimming 720 1 80 25 40).get_spent_calories
        = some ((1 + 1.1) * 2 * 80 * 1)
    ∧ (Training.swimming 720 1 80 25 40).get_spent_calories = some 336 := by
  refine ⟨rfl, ?_, ?_, ?_, ?_, ?_, ?_⟩ <;>
    norm_num [Training.get_distance, Training.get_mean_speed,
      Training.get_spent_calories, Training.action, Training.duration,
      Training.LEN_STEP, Swimming.LEN_STEP, Swimming.COEFF_1, Swimming.COEFF_2,
      pydiv, M_IN_KM, MIN_IN_HOUR]

/-- C7 counterexample: the running scenario record's calories are exactly
`797.805`, which differs from the claimed `792.84` — also after rendering
both to three decimal places. -/
theorem C7_counterexample :
    (Training.running 15000 1 75).get_spent_calories = some 797.805
    ∧ (797.805 : ℚ) ≠ 792.84
    ∧ formatFix3 797.805 ≠ formatFix3 792.84 := by
  have h1 : round ((797.805 : ℚ) * 1000) = 797805 := by rw [round_eq]; norm_num
  have h2 : round ((792.84 : ℚ) * 1000) = 792840 := by rw [round_eq]; norm_num
  refine ⟨?_, by norm_num, ?_⟩
  · norm_num [Training.get_spent_calories, Training.get_mean_speed,
      Training.get_distance, Training.action, Training.duration,
      Training.LEN_STEP, Running.CALORIES_MEAN_SPEED_MULTIPLIER,
      Running.CALORIES_MEAN_SPEED_SHIFT, pydiv, M_IN_KM, MIN_IN_HOUR]
  · rw [formatFix3, formatFix3, h1, h2]
    decide

/-- C7 amended: end-to-end running scenario: dispatching
`("RUN", [15000,1,75])` constructs the Running record, whose distance is
`15000*0.65/1000 = 9.75`, whose mean speed is `9.75/1 = 9.75` and whose
calories are `(18*9.75+1.79)*75/1000*(1*60) = 797.805`. -/
theorem C7_running_scenario :
    read_package "RUN" [15000, 1, 75] = Except.ok (Training.running 15000 1 75)
    ∧ (Training.running 15000 1 75).get_distance = 15000 * 0.65 / 1000
    ∧ (Training.running 15000 1 75).get_distance = 9.75
    ∧ (Training.running 15000 1 75).get_mean_speed = some (9.75 / 1)
    ∧ (Training.running 15000 1 75).get_spent_calories
        = some ((18 * 9.75 + 1.79) * 75 / 1000 * (1 * 60))
    ∧ (Training.running 15000 1 75).get_spent_calories = some 797.805 := by
  refine ⟨rfl, ?_, ?_, ?_, ?_, ?_⟩ <;>
    norm_num [Training.get_distance, Training.get_mean_speed,
      Training.get_spent_calories, Training.action, Training.duration,
      Training.LEN_STEP, Running.CALORIES_MEAN_SPEED_MULTIPLIER,
      Running.CALORIES_MEAN_SPEED_SHIFT, pydiv, M_IN_KM, MIN_IN_HOUR]

/-- C9: swimming mean speed is noninterferent with `action`: two Swimming
records agreeing on everything except `action` have equal mean speeds. -/
theorem C9_speed_ignores_action (a a' d w l c : ℚ) :
    (Training.swimming a d w l c).get_mean_speed
      = (Training.swimming a' d w l c).get_mean_speed := rfl

/-- C4 counterexample: at the swimming scenario record the produced message
is not the English template instantiation claimed (the source's template
uses Russian field labels). -/
theorem C4_counterexample :
    (Training.swimming 720 1 80 25 40).show_training_info.map InfoMessage.get_message
      ≠ some ("Workout type: Swimming; Duration: 1.000 h.; Distance: 0.994 km; Avg speed: 1.000 km/h; Calories burned: 336.000.") := by
  have hinfo : (Training.swimming 720 1 80 25 40).show_training_info
      = some ⟨"Swimming", 1, 0.9936, 1, 336⟩ := by
    norm_num [Training.show_training_info, Training.get_mean_speed,
      Training.get_spent_calories, Training.get_distance, Training.action,
      Training.duration, Training.type_name, Training.LEN_STEP,
      Swimming.LEN_STEP, Swimming.COEFF_1, Swimming.COEFF_2, pydiv,
      M_IN_KM, MIN_IN_HOUR]
  have h1 : round ((1 : ℚ) * 1000) = 1000 := by rw [round_eq]; norm_num
  have h2 : round ((0.9936 : ℚ) * 1000) = 994 := by rw [round_eq]; norm_num
  have h3 : round ((336 : ℚ) * 1000) = 336000 := by rw [round_eq]; norm_num
  rw [hinfo]
  simp only [Option.map_some', InfoMessage.get_message, formatFix3, h1, h2, h3]
  decide

/-- C4 amended: for every record whose mean-speed and calorie computations
succeed, the summary message is exactly the source's single-line template —
the same structure the claim states but with the Russian field labels of
the source — with each numeric field rendered with three digits after the
decimal point and the name equal to the variant's identifier. -/
theorem C4_message_format (t : Training) (sp cal : ℚ)
    (hs : t.get_mean_speed = some sp) (hc : t.get_spent_calories = some cal) :
    t.show_training_info.map InfoMessage.get_message
      = some ("Тип тренировки: " ++ t.type_name
        ++ "; Длительность: " ++ formatFix3 t.duration
        ++ " ч.; Дистанция: " ++ formatFix3 t.get_distance
        ++ " км; Ср. скорость: " ++ formatFix3 sp
        ++ " км/ч; Потрачено ккал: " ++ formatFix3 cal ++ ".") := by
  simp only [Training.show_training_info, hs, hc, Option.some_bind',
    Option.map_some', InfoMessage.get_message]

/-- C4 witness at the swimming scenario record. -/
theorem C4_message_format_witness :
    (Training.swimming 720 1 80 25 40).show_training_info.map InfoMessage.get_message
      = some ("Тип тренировки: " ++ (Training.swimming 720 1 80 25 40).type_name
        ++ "; Длительность: " ++ formatFix3 (Training.swimming 720 1 80 25 40).duration
        ++ " ч.; Дистанция: " ++ formatFix3 (Training.swimming 720 1 80 25 40).get_distance
        ++ " км; Ср. скорость: " ++ formatFix3 1
        ++ " км/ч; Потрачено ккал: " ++ formatFix3 336 ++ ".") :=
  C4_message_format (Training.swimming 720 1 80 25 40) 1 336
    (by norm_num [Training.get_mean_speed, pydiv, M_IN_KM])
    (by norm_num [Training.get_spent_calories, Training.get_mean_speed,
      pydiv, M_IN_KM, Swimming.COEFF_1, Swimming.COEFF_2])

/-- C5 counterexample: a recognized code with a value list of the wrong
length yields an error rather than a constructed record, and for two
distinct unrecognized codes the errors are identical values, so the error
cannot carry the offending code. -/
theorem C5_counterexample :
    read_package "RUN" [1, 1] = Except.error PyError.typeError
    ∧ read_package "XYZ" [1, 1, 1] = read_package "ABC" [1, 1, 1] :=
  ⟨rfl, rfl⟩

/-- C5 amended: for each recognized code paired with a value list of the
variant's arity, dispatch returns the constructed record of the matching
variant; for every other code it fails deterministically with the same
error kind — a ValueError with a fixed message that does not carry the
offending code. -/
theorem C5_dispatch (code : String) (data : List ℚ) (a d w h l c : ℚ)
    (h1 : code ≠ "SWM") (h2 : code ≠ "RUN") (h3 : code ≠ "WLK") :
    read_package "SWM" [a, d, w, l, c] = Except.ok (Training.swimming a d w l c)
    ∧ read_package "RUN" [a, d, w] = Except.ok (Training.running a d w)
    ∧ read_package "WLK" [a, d, w, h] = Except.ok (Training.sportsWalking a d w h)
    ∧ read_package code data
        = Except.error (PyError.valueError "Неподдерживаемый тип тренировки") := by
  refine ⟨rfl, rfl, rfl, ?_⟩
  simp [read_package, h1, h2, h3]

/-- C5 witness: the three scenario-sized dispatches and the unknown code
`XYZ`. -/
theorem C5_dispatch_witness :
    read_package "SWM" [(1 : ℚ), 2, 3, 5, 6] = Except.ok (Training.swimming 1 2 3 5 6)
    ∧ read_package "RUN" [(1 : ℚ), 2, 3] = Except.ok (Training.running 1 2 3)
    ∧ read_package "WLK" [(1 : ℚ), 2, 3, 4] = Except.ok (Training.sportsWalking 1 2 3 4)
    ∧ read_package "XYZ" [(1 : ℚ)]
        = Except.error (PyError.valueError "Неподдерживаемый тип тренировки") :=
  C5_dispatch "XYZ" [1] 1 2 3 4 5 6 (by decide) (by decide) (by decide)

/-- C8 counterexample: at code `RUN` with the four-element list
`[1,1,1,1]` dispatch fails with the generic construction error, not with
the domain-specific ArityMismatch error the claim states. -/
theorem C8_counterexample :
    read_package "RUN" [1, 1, 1, 1] = Except.error PyError.typeError
    ∧ read_package "RUN" [1, 1, 1, 1] ≠ Except.error PyError.arityMismatch := by
  refine ⟨rfl, fun hcontra => ?_⟩
  have h : Except.error (ε := PyError) (α := Training) PyError.typeError
      = Except.error PyError.arityMismatch := hcontra
  exact absurd (Except.error.inj h) (by decide)

/-- C8 amended: for every recognized code paired with a raw value list
whose length does not match that variant's arity (3 for Running, 4 for
SportsWalking, 5 for Swimming), dispatch fails — but with the generic
construction error of positional unpacking (TypeError), not with a
domain-specific ArityMismatch error — rather than returning a record. -/
theorem C8_arity_generic_error (data : List ℚ) :
    (data.length ≠ 3 → read_package "RUN" data = Except.error PyError.typeError)
    ∧ (data.length ≠ 4 → read_package "WLK" data = Except.error PyError.typeError)
    ∧ (data.length ≠ 5 → read_package "SWM" data = Except.error PyError.typeError) := by
  rcases data with _ | ⟨x1, _ | ⟨x2, _ | ⟨x3, _ | ⟨x4, _ | ⟨x5, _ | ⟨x6, rest⟩⟩⟩⟩⟩⟩ <;>
    refine ⟨fun h => ?_, fun h => ?_, fun h => ?_⟩ <;>
    first
      | rfl
      | exact absurd rfl h

/-- C8 witness: wrong-arity lists for each recognized code. -/
theorem C8_arity_generic_error_witness :
    read_package "RUN" [(1 : ℚ), 1, 1, 1] = Except.error PyError.typeError
    ∧ read_package "WLK" [(1 : ℚ)] = Except.error PyError.typeError
    ∧ read_package "SWM" [(1 : ℚ), 1, 1] = Except.error PyError.typeError :=
  ⟨(C8_arity_generic_error [1, 1, 1, 1]).1 (by decide),
   (C8_arity_generic_error [1]).2.1 (by decide),
   (C8_arity_generic_error [1, 1, 1]).2.2 (by decide)⟩

/-- C10: positivity of `duration` is required but not enforced: whenever
`duration` is nonzero (and, for SportsWalking, `height` is nonzero) every
metric computation succeeds — there is no guard against zero or negative
measurements, so even negative values are accepted — while with
`duration = 0` the mean-speed, calorie and summary computations all fail
with a division error. -/
theorem C10_division_guard (t : Training) :
    (t.duration ≠ 0 → t.height_nonzero →
      t.get_mean_speed.isSome ∧ t.get_spent_calories.isSome
        ∧ t.show_training_info.isSome)
    ∧ (t.duration = 0 →
      t.get_mean_speed = none ∧ t.get_spent_calories = none
        ∧ t.show_training_info = none) := by
  cases t with
  | running a d w =>
    refine ⟨fun hd _ => ?_, fun hd => ?_⟩ <;> simp only [Training.duration] at hd <;>
      simp [Training.get_mean_speed, Training.get_spent_calories,
        Training.show_training_info, Training.get_distance, Training.duration,
        Training.action, pydiv, hd]
  | sportsWalking a d w h =>
    refine ⟨fun hd hh => ?_, fun hd => ?_⟩ <;> simp only [Training.duration] at hd
    · simp only [Training.height_nonzero] at hh
      have h100 : h / SportsWalking.SM_M ≠ 0 := by
        rw [SportsWalking.SM_M]
        exact div_ne_zero hh (by norm_num)
      simp [Training.get_mean_speed, Training.get_spent_calories,
        Training.show_training_info, Training.get_distance, Training.duration,
        Training.action, pydiv, hd, h100]
    · simp [Training.get_mean_speed, Training.get_spent_calories,
        Training.show_training_info, Training.get_distance, Training.duration,
        Training.action, pydiv, hd]
  | swimming a d w l c =>
    refine ⟨fun hd _ => ?_, fun hd => ?_⟩ <;> simp only [Training.duration] at hd <;>
      simp [Training.get_mean_speed, Training.get_spent_calories,
        Training.show_training_info, Training.get_distance, Training.duration,
        Training.action, pydiv, hd]

/-- C10 witness: a running record with positive duration computes, one with
negative duration also computes (no sign guard), and one with zero
duration fails. -/
theorem C10_division_guard_witness :
    (Training.running 2 1 3).get_mean_speed.isSome
    ∧ (Training.running 2 (-1) 3).get_mean_speed.isSome
    ∧ (Training.running 2 0 3).get_mean_speed = none :=
  ⟨((C10_division_guard (Training.running 2 1 3)).1
      (by norm_num [Training.duration]) True.intro).1,
   ((C10_division_guard (Training.running 2 (-1) 3)).1
      (by norm_num [Training.duration]) True.intro).1,
   ((C10_division_guard (Training.running 2 0 3)).2 rfl).1⟩
